import Mathlib

/-!
Verification of the eduflow-ai browser client against its specification.

The development shallowly embeds the TypeScript source of the repository:
pure helper functions become Lean functions over `ℚ`/`String`/`List`;
the React component state of the MarkAttendance and StudentTraining screens
becomes explicit record-passing state machines; browser side effects
(toasts, network calls) are collected in explicit effect traces; fallible
JavaScript code (JSON.parse, atob, decodeURIComponent) is modelled with
`Except`, and a caught exception becomes an `error` branch.
-/

namespace EduFlow

/-! ## Confidence classification (MarkAttendance.tsx)

The detection-status assignment inside `captureAndProcess`
(`s.confidence >= 0.85 ? 'success' : s.confidence >= 0.7 ? 'warning' : 'error'`)
and the two colour helpers `getConfidenceColor` / `getConfidenceBarColor`. -/

def captureStatusAssignment (c : ℚ) : String :=
  if c ≥ 0.85 then "success" else if c ≥ 0.7 then "warning" else "error"

def getConfidenceColor (c : ℚ) : String :=
  if c ≥ 0.85 then "text-success" else if c ≥ 0.7 then "text-warning" else "text-destructive"

def getConfidenceBarColor (c : ℚ) : String :=
  if c ≥ 0.85 then "bg-success" else if c ≥ 0.7 then "bg-warning" else "bg-destructive"

/-- The three presentation tiers named by the specification. -/
inductive Tier
  | high
  | medium
  | low
deriving Repr, DecidableEq

/-- Modelled from the spec: the confidence-tier mapping as the specification
states it ("high" if c ≥ 0.85; "medium" if 0.70 ≤ c < 0.85; "low" if c < 0.70),
used to compare the three code-level presentations against one mapping. -/
def specTier (c : ℚ) : Tier :=
  if c ≥ 0.85 then Tier.high
  else if 0.7 ≤ c ∧ c < 0.85 then Tier.medium
  else Tier.low

/-- Which tier a detection-status string denotes. -/
def tierOfStatusString (s : String) : Option Tier :=
  if s = "success" then some Tier.high
  else if s = "warning" then some Tier.medium
  else if s = "error" then some Tier.low
  else none

/-- Which tier a text-colour class denotes. -/
def tierOfTextColor (s : String) : Option Tier :=
  if s = "text-success" then some Tier.high
  else if s = "text-warning" then some Tier.medium
  else if s = "text-destructive" then some Tier.low
  else none

/-- Which tier a bar-colour class denotes. -/
def tierOfBarColor (s : String) : Option Tier :=
  if s = "bg-success" then some Tier.high
  else if s = "bg-warning" then some Tier.medium
  else if s = "bg-destructive" then some Tier.low
  else none

/-! ## A model of JSON values and of JSON.parse

`JSON.parse` is a platform builtin; it is modelled by a total, fuel-bounded
recursive-descent parser over the JSON grammar, returning `Except` where the
builtin throws `SyntaxError`.  UTF-16 escape sequences that do not denote a
Unicode scalar value are approximated by U+FFFD. -/

inductive Json
  | null
  | bool (b : Bool)
  | num (q : ℚ)
  | str (s : String)
  | arr (elems : List Json)
  | obj (fields : List (String × Json))

def lbraceChar : Char := Char.ofNat 123

def rbraceChar : Char := Char.ofNat 125

def isJsonWs (c : Char) : Bool := c = ' ' || c = '\t' || c = '\n' || c = '\r'

def skipWs (cs : List Char) : List Char := cs.dropWhile isJsonWs

def hexVal (c : Char) : Option Nat :=
  if '0' ≤ c ∧ c ≤ '9' then some (c.toNat - 48)
  else if 'a' ≤ c ∧ c ≤ 'f' then some (c.toNat - 87)
  else if 'A' ≤ c ∧ c ≤ 'F' then some (c.toNat - 55)
  else none

def isDigitChar (c : Char) : Bool := '0' ≤ c ∧ c ≤ '9'

def codeUnitChar (n : Nat) : Char :=
  if n < 55296 then Char.ofNat n
  else if 57343 < n ∧ n < 1114112 then Char.ofNat n
  else Char.ofNat 65533

def parseStringBody : Nat → List Char → List Char → Except String (String × List Char)
  | 0, _, _ => Except.error "fuel exhausted"
  | _ + 1, _, [] => Except.error "SyntaxError: unterminated string"
  | fuel + 1, acc, c :: rest =>
    if c = '"' then Except.ok (String.mk acc.reverse, rest)
    else if c = '\\' then
      match rest with
      | [] => Except.error "SyntaxError: bad escape"
      | e :: rest2 =>
        if e = '"' then parseStringBody fuel ('"' :: acc) rest2
        else if e = '\\' then parseStringBody fuel ('\\' :: acc) rest2
        else if e = '/' then parseStringBody fuel ('/' :: acc) rest2
        else if e = 'b' then parseStringBody fuel (Char.ofNat 8 :: acc) rest2
        else if e = 'f' then parseStringBody fuel (Char.ofNat 12 :: acc) rest2
        else if e = 'n' then parseStringBody fuel ('\n' :: acc) rest2
        else if e = 'r' then parseStringBody fuel ('\r' :: acc) rest2
        else if e = 't' then parseStringBody fuel ('\t' :: acc) rest2
        else if e = 'u' then
          match rest2 with
          | h1 :: h2 :: h3 :: h4 :: rest3 =>
            match hexVal h1, hexVal h2, hexVal h3, hexVal h4 with
            | some a, some b, some c2, some d =>
              parseStringBody fuel (codeUnitChar (((a * 16 + b) * 16 + c2) * 16 + d) :: acc) rest3
            | _, _, _, _ => Except.error "SyntaxError: bad unicode escape"
          | _ => Except.error "SyntaxError: bad unicode escape"
        else Except.error "SyntaxError: bad escape"
    else if c.toNat < 32 then Except.error "SyntaxError: control character in string"
    else parseStringBody fuel (c :: acc) rest

def takeDigits (cs : List Char) : List Char × List Char :=
  (cs.takeWhile isDigitChar, cs.dropWhile isDigitChar)

def digitsToNat (ds : List Char) : Nat := ds.foldl (fun n c => n * 10 + (c.toNat - 48)) 0

def parseFrac (cs : List Char) : Except String (List Char × List Char) :=
  match cs with
  | '.' :: rest =>
    match takeDigits rest with
    | ([], _) => Except.error "SyntaxError: expected fraction digits"
    | (ds, rest2) => Except.ok (ds, rest2)
  | _ => Except.ok ([], cs)

def parseExp (cs : List Char) : Except String (Bool × List Char × List Char) :=
  match cs with
  | c :: rest =>
    if c = 'e' ∨ c = 'E' then
      let (sign, rest2) : Bool × List Char :=
        match rest with
        | '+' :: r => (false, r)
        | '-' :: r => (true, r)
        | _ => (false, rest)
      match takeDigits rest2 with
      | ([], _) => Except.error "SyntaxError: expected exponent digits"
      | (ds, rest3) => Except.ok (sign, ds, rest3)
    else Except.ok (false, [], cs)
  | [] => Except.ok (false, [], [])

def parseNumber (cs : List Char) : Except String (ℚ × List Char) := do
  let (neg, cs1) : Bool × List Char :=
    match cs with
    | '-' :: rest => (true, rest)
    | _ => (false, cs)
  match takeDigits cs1 with
  | ([], _) => Except.error "SyntaxError: expected digit"
  | (ds, cs2) =>
    if 1 < ds.length ∧ ds.head? = some '0' then
      Except.error "SyntaxError: leading zero"
    else do
      let (fds, cs3) ← parseFrac cs2
      let (esign, eds, cs4) ← parseExp cs3
      let base : ℚ := (digitsToNat ds : ℚ) + (digitsToNat fds : ℚ) / ((10 : ℚ) ^ fds.length)
      let e := digitsToNat eds
      let scaled : ℚ := if esign then base / (10 : ℚ) ^ e else base * (10 : ℚ) ^ e
      Except.ok ((if neg then -scaled else scaled), cs4)

mutual

def parseValue : Nat → List Char → Except String (Json × List Char)
  | 0, _ => Except.error "fuel exhausted"
  | fuel + 1, cs =>
    match skipWs cs with
    | [] => Except.error "SyntaxError: unexpected end of input"
    | c :: rest =>
      if c = '"' then
        match parseStringBody (rest.length + 1) [] rest with
        | Except.error e => Except.error e
        | Except.ok (s, rest2) => Except.ok (Json.str s, rest2)
      else if c = '[' then
        match skipWs rest with
        | [] => Except.error "SyntaxError: unterminated array"
        | d :: rest2 =>
          if d = ']' then Except.ok (Json.arr [], rest2)
          else parseArrElems fuel (d :: rest2) []
      else if c = lbraceChar then
        match skipWs rest with
        | [] => Except.error "SyntaxError: unterminated object"
        | d :: rest2 =>
          if d = rbraceChar then Except.ok (Json.obj [], rest2)
          else parseObjElems fuel (d :: rest2) []
      else if c = 't' then
        if rest.take 3 = ['r', 'u', 'e'] then Except.ok (Json.bool true, rest.drop 3)
        else Except.error "SyntaxError: unexpected token"
      else if c = 'f' then
        if rest.take 4 = ['a', 'l', 's', 'e'] then Except.ok (Json.bool false, rest.drop 4)
        else Except.error "SyntaxError: unexpected token"
      else if c = 'n' then
        if rest.take 3 = ['u', 'l', 'l'] then Except.ok (Json.null, rest.drop 3)
        else Except.error "SyntaxError: unexpected token"
      else if c = '-' ∨ isDigitChar c then
        match parseNumber (c :: rest) with
        | Except.error e => Except.error e
        | Except.ok (q, rest2) => Except.ok (Json.num q, rest2)
      else Except.error "SyntaxError: unexpected token"

def parseArrElems : Nat → List Char → List Json → Except String (Json × List Char)
  | 0, _, _ => Except.error "fuel exhausted"
  | fuel + 1, cs, acc =>
    match parseValue fuel cs with
    | Except.error e => Except.error e
    | Except.ok (v, rest) =>
      match skipWs rest with
      | ',' :: rest2 => parseArrElems fuel rest2 (v :: acc)
      | c :: rest2 =>
        if c = ']' then Except.ok (Json.arr (v :: acc).reverse, rest2)
        else Except.error "SyntaxError: expected comma or close of array"
      | [] => Except.error "SyntaxError: unterminated array"

def parseObjElems : Nat → List Char → List (String × Json) → Except String (Json × List Char)
  | 0, _, _ => Except.error "fuel exhausted"
  | fuel + 1, cs, acc =>
    match skipWs cs with
    | '"' :: rest =>
      match parseStringBody (rest.length + 1) [] rest with
      | Except.error e => Except.error e
      | Except.ok (k, rest2) =>
        match skipWs rest2 with
        | ':' :: rest3 =>
          match parseValue fuel rest3 with
          | Except.error e => Except.error e
          | Except.ok (v, rest4) =>
            match skipWs rest4 with
            | ',' :: rest5 => parseObjElems fuel rest5 ((k, v) :: acc)
            | c :: rest5 =>
              if c = rbraceChar then Except.ok (Json.obj ((k, v) :: acc).reverse, rest5)
              else Except.error "SyntaxError: expected comma or close of object"
            | [] => Except.error "SyntaxError: unterminated object"
        | _ => Except.error "SyntaxError: expected colon"
    | _ => Except.error "SyntaxError: expected property name"

end

/-- Model of the `JSON.parse` builtin: parse a complete JSON document. -/
def jsonParse (s : String) : Except String Json :=
  match parseValue (2 * s.length + 2) s.data with
  | Except.error e => Except.error e
  | Except.ok (v, rest) =>
    if (skipWs rest).isEmpty then Except.ok v
    else Except.error "SyntaxError: unexpected trailing characters"

/-! ## Durable client storage and the auth helpers (lib/api.ts)

`localStorage` is modelled as a total key-value map.  The `auth` object from
the Gateway module (`isAuthenticated`, `getToken`, `getUser`, `setAuth`,
`logout`) is embedded over it; JavaScript truthiness of strings (the empty
string is falsy) is preserved. -/

def Storage := String → Option String

def Storage.getItem (st : Storage) (k : String) : Option String := st k

def Storage.setItem (st : Storage) (k v : String) : Storage :=
  fun q => if q = k then some v else st q

def Storage.removeItem (st : Storage) (k : String) : Storage :=
  fun q => if q = k then none else st q

def emptyStorage : Storage := fun _ => none

/-- The `User` shape stored by `setAuth` (id, email, role, optional name). -/
structure UserProfile where
  id : Nat
  email : String
  role : String
  name : Option String

/-- Model of `JSON.stringify` restricted to the `User` shape (escaping of
exotic characters inside the fields is not modelled; the serialized text is
only ever stored and removed opaquely in the verified properties). -/
def stringifyUser (u : UserProfile) : String :=
  "\x7b\"id\":" ++ toString u.id ++ ",\"email\":\"" ++ u.email ++
    "\",\"role\":\"" ++ u.role ++ "\"" ++
    (match u.name with
     | some n => ",\"name\":\"" ++ n ++ "\""
     | none => "") ++ "\x7d"

def isAuthenticated (st : Storage) : Bool :=
  match st.getItem "access_token" with
  | some t => t != ""
  | none => false

def getToken (st : Storage) : Option String := st.getItem "access_token"

def getUser (st : Storage) : Except String (Option Json) :=
  match st.getItem "user" with
  | none => Except.ok none
  | some u => if u = "" then Except.ok none else (jsonParse u).map some

def setAuth (st : Storage) (token : String) (u : UserProfile) : Storage :=
  (st.setItem "access_token" token).setItem "user" (stringifyUser u)

def logout (st : Storage) : Storage :=
  (st.removeItem "access_token").removeItem "user"

/-! ## decodeJWT (lib/api.ts)

The pipeline `token.split('.')[1]` → base64url-to-base64 `replace` → `atob`
→ percent-encoding of each byte → `decodeURIComponent` → `JSON.parse`,
wrapped in try/catch.  Each fallible builtin is modelled with `Except`:
`atob` implements the forgiving-base64 decode, `decodeURIComponent`
percent-decodes and UTF-8-decodes maximal escape runs. -/

def b64Val (c : Char) : Option Nat :=
  if 'A' ≤ c ∧ c ≤ 'Z' then some (c.toNat - 65)
  else if 'a' ≤ c ∧ c ≤ 'z' then some (c.toNat - 71)
  else if '0' ≤ c ∧ c ≤ '9' then some (c.toNat + 4)
  else if c = '+' then some 62
  else if c = '/' then some 63
  else none

def stripTrailingEq (cs : List Char) : List Char :=
  let cs1 := if cs.getLast? = some '=' then cs.dropLast else cs
  if cs1.getLast? = some '=' then cs1.dropLast else cs1

def decodeB64Groups : List Nat → List Nat
  | a :: b :: c :: d :: rest =>
    (a * 4 + b / 16) :: ((b % 16) * 16 + c / 4) :: ((c % 4) * 64 + d) :: decodeB64Groups rest
  | [a, b] => [a * 4 + b / 16]
  | [a, b, c] => [a * 4 + b / 16, (b % 16) * 16 + c / 4]
  | _ => []

/-- Model of the `atob` builtin (forgiving-base64 decode to a byte list). -/
def atob (s : String) : Except String (List Nat) :=
  let cs0 := s.data.filter
    (fun c => !(c = ' ' || c = '\t' || c = '\n' || c = Char.ofNat 12 || c = '\r'))
  let cs := if cs0.length % 4 = 0 then stripTrailingEq cs0 else cs0
  if cs.length % 4 = 1 then Except.error "InvalidCharacterError"
  else
    match cs.mapM b64Val with
    | none => Except.error "InvalidCharacterError"
    | some vals => Except.ok (decodeB64Groups vals)

/-- The two global `replace` calls turning base64url into base64
(dash to plus, underscore to slash). -/
def b64urlToB64 (s : String) : String :=
  String.mk (s.data.map (fun c => if c = '-' then '+' else if c = '_' then '/' else c))

def hexDigitChar (n : Nat) : Char :=
  if n < 10 then Char.ofNat (48 + n) else Char.ofNat (87 + n)

/-- The slice `('00' + c.charCodeAt(0).toString(16)).slice(-2)` for a byte. -/
def byteToHex2 (n : Nat) : String :=
  String.mk [hexDigitChar (n / 16 % 16), hexDigitChar (n % 16)]

/-- The join `bytes.map(b => '%' + hex2(b)).join('')`. -/
def percentEncodeBytes (bs : List Nat) : String :=
  String.join (bs.map (fun b => "%" ++ byteToHex2 b))

inductive UriTok
  | lit (c : Char)
  | byte (b : Nat)

def UriTok.isByte : UriTok → Bool
  | UriTok.byte _ => true
  | UriTok.lit _ => false

def UriTok.byteVal : UriTok → Nat
  | UriTok.byte b => b
  | UriTok.lit _ => 0

def uriTokens : List Char → Except String (List UriTok)
  | [] => Except.ok []
  | '%' :: rest =>
    match rest with
    | h1 :: h2 :: rest2 =>
      match hexVal h1, hexVal h2 with
      | some a, some b => (uriTokens rest2).map (fun ts => UriTok.byte (a * 16 + b) :: ts)
      | _, _ => Except.error "URIError: malformed URI sequence"
    | _ => Except.error "URIError: malformed URI sequence"
  | c :: rest => (uriTokens rest).map (fun ts => UriTok.lit c :: ts)

def utf8DecodeBytes : List Nat → Except String (List Char)
  | [] => Except.ok []
  | b :: rest =>
    if b < 128 then (utf8DecodeBytes rest).map (fun cs => Char.ofNat b :: cs)
    else if 194 ≤ b ∧ b ≤ 223 then
      match rest with
      | c1 :: rest2 =>
        if 128 ≤ c1 ∧ c1 ≤ 191 then
          (utf8DecodeBytes rest2).map
            (fun cs => Char.ofNat ((b - 194 + 2) * 64 + (c1 - 128)) :: cs)
        else Except.error "URIError: malformed URI sequence"
      | [] => Except.error "URIError: malformed URI sequence"
    else if 224 ≤ b ∧ b ≤ 239 then
      match rest with
      | c1 :: c2 :: rest2 =>
        if (if b = 224 then 160 else 128) ≤ c1 ∧ c1 ≤ (if b = 237 then 159 else 191)
            ∧ 128 ≤ c2 ∧ c2 ≤ 191 then
          (utf8DecodeBytes rest2).map
            (fun cs => Char.ofNat ((b - 224) * 4096 + (c1 - 128) * 64 + (c2 - 128)) :: cs)
        else Except.error "URIError: malformed URI sequence"
      | _ => Except.error "URIError: malformed URI sequence"
    else if 240 ≤ b ∧ b ≤ 244 then
      match rest with
      | c1 :: c2 :: c3 :: rest2 =>
        if (if b = 240 then 144 else 128) ≤ c1 ∧ c1 ≤ (if b = 244 then 143 else 191)
            ∧ 128 ≤ c2 ∧ c2 ≤ 191 ∧ 128 ≤ c3 ∧ c3 ≤ 191 then
          (utf8DecodeBytes rest2).map
            (fun cs =>
              Char.ofNat ((b - 240) * 262144 + (c1 - 128) * 4096 + (c2 - 128) * 64 + (c3 - 128)) :: cs)
        else Except.error "URIError: malformed URI sequence"
      | _ => Except.error "URIError: malformed URI sequence"
    else Except.error "URIError: malformed URI sequence"

def decodeUriTokens : Nat → List UriTok → Except String (List Char)
  | 0, _ => Except.error "fuel exhausted"
  | _ + 1, [] => Except.ok []
  | fuel + 1, UriTok.lit c :: rest => (decodeUriTokens fuel rest).map (fun cs => c :: cs)
  | fuel + 1, UriTok.byte b :: rest =>
    match utf8DecodeBytes (b :: (rest.takeWhile UriTok.isByte).map UriTok.byteVal) with
    | Except.error e => Except.error e
    | Except.ok cs =>
      (decodeUriTokens fuel (rest.dropWhile UriTok.isByte)).map (fun cs2 => cs ++ cs2)

/-- Model of the `decodeURIComponent` builtin. -/
def decodeURIComponentModel (s : String) : Except String String :=
  match uriTokens s.data with
  | Except.error e => Except.error e
  | Except.ok ts =>
    match decodeUriTokens (ts.length + 1) ts with
    | Except.error e => Except.error e
    | Except.ok cs => Except.ok (String.mk cs)

def splitOnCharAux (sep : Char) : List Char → List Char → List (List Char)
  | acc, [] => [acc.reverse]
  | acc, c :: rest =>
    if c = sep then acc.reverse :: splitOnCharAux sep [] rest
    else splitOnCharAux sep (c :: acc) rest

/-- JavaScript `s.split(sep)` for a single-character separator. -/
def jsSplitChar (sep : Char) (s : String) : List String :=
  (splitOnCharAux sep [] s.data).map String.mk

/-- The body of `decodeJWT` before the surrounding try/catch: every step that
can throw in JavaScript is an `Except.error` here. -/
def decodeJWTPipeline (token : String) : Except String Json :=
  match (jsSplitChar '.' token)[1]? with
  | none => Except.error "TypeError: cannot read properties of undefined"
  | some base64Url =>
    match atob (b64urlToB64 base64Url) with
    | Except.error e => Except.error e
    | Except.ok bytes =>
      match decodeURIComponentModel (percentEncodeBytes bytes) with
      | Except.error e => Except.error e
      | Except.ok jsonPayload => jsonParse jsonPayload

/-- The exported `decodeJWT`: the catch block maps every raised error to null. -/
def decodeJWT (token : String) : Option Json :=
  match decodeJWTPipeline token with
  | Except.ok v => some v
  | Except.error _ => none

/-! ## Gateway error normalization (lib/api.ts)

The non-2xx branch of `requestJson` / `requestFormData` and the standalone
`handleApiError` helper.  The response body is either unparseable JSON or a
record with optional `detail` (string or validation array whose entries have
an optional string `msg`) and optional `message`.  JavaScript truthiness
(`if (body?.detail)`, `|| fallback`) and the nullish-coalescing operator
(`?? message`) are modelled exactly. -/

structure ErrEntry where
  msg : Option String
deriving Repr, DecidableEq

inductive DetailVal
  | str (s : String)
  | arr (entries : List ErrEntry)
deriving Repr, DecidableEq

structure ErrBody where
  detail : Option DetailVal
  message : Option String
deriving Repr, DecidableEq

inductive BodyParse
  | unparseable
  | parsed (b : ErrBody)
deriving Repr, DecidableEq

/-- The branch `else if (body?.message) message = body.message` (empty string is falsy). -/
def messageFieldOr (b : ErrBody) (fallback : String) : String :=
  match b.message with
  | some m => if m = "" then fallback else m
  | none => fallback

/-- The message thrown by `requestJson` and `requestFormData` for a non-2xx
response with the given status and (attempted) JSON body. -/
def requestJsonErrorMessage (status : Nat) (body : BodyParse) : String :=
  let fallback := "Request failed (" ++ toString status ++ ")"
  match body with
  | BodyParse.unparseable => fallback
  | BodyParse.parsed b =>
    match b.detail with
    | some (DetailVal.str s) => if s = "" then messageFieldOr b fallback else s
    | some (DetailVal.arr es) =>
      match es.head? with
      | some e =>
        match e.msg with
        | some m => m
        | none => fallback
      | none => fallback
    | none => messageFieldOr b fallback

/-- The message thrown by `handleApiError` for a non-2xx response, given the
per-operation fallback message. -/
def handleApiErrorMessage (fallbackMessage : String) (body : BodyParse) : String :=
  match body with
  | BodyParse.unparseable => fallbackMessage
  | BodyParse.parsed b =>
    match b.detail with
    | some (DetailVal.str s) => if s = "" then fallbackMessage else s
    | some (DetailVal.arr es) =>
      match es.head? with
      | some e =>
        match e.msg with
        | some m => if m = "" then fallbackMessage else m
        | none => fallbackMessage
      | none => fallbackMessage
    | none => fallbackMessage

/-! ## MarkAttendance capture-and-submit workflow (MarkAttendance.tsx)

The component state is a record; user actions and asynchronous callbacks are
functions from state to state, side effects (toasts, the network call to the
mark-attendance endpoint) are collected in an effect trace, and the pending
`canvas.toBlob` continuation is returned explicitly so that the event loop
can be replayed.  The event model is the browser's: events run to completion
one at a time, and a click on a button only dispatches its handler if the
button is enabled in the state rendered from the current component state. -/

structure ServerStudent where
  student_id : Nat
  name : Option String
  roll_no : Option String
  confidence : ℚ
deriving Repr, DecidableEq

structure AttendanceResult where
  status : String
  count : Nat
  students_present : List ServerStudent
deriving Repr, DecidableEq

structure DetectedStudent where
  student_id : Nat
  name : Option String
  roll_no : Option String
  confidence : ℚ
  status : String
deriving Repr, DecidableEq

/-- The mapping applied to each entry of `result.students_present`. -/
def toDetectedStudent (s : ServerStudent) : DetectedStudent :=
  { student_id := s.student_id, name := s.name, roll_no := s.roll_no,
    confidence := s.confidence, status := captureStatusAssignment s.confidence }

/-- A JPEG encoding produced from a canvas: the bitmap dimensions and the
quality argument passed to `toDataURL` or `toBlob` (none = platform default). -/
structure Jpeg where
  width : Nat
  height : Nat
  quality : Option ℚ
deriving Repr, DecidableEq

/-- A `MediaStream`: one liveness flag per hardware track. -/
structure MediaStreamModel where
  tracks : List Bool
deriving Repr, DecidableEq

inductive Effect
  | toastError (msg : String)
  | toastWarning (msg : String)
  | toastSuccess (msg : String)
  | networkMarkAttendance (subjectId : Nat)
  | networkRegisterStudent (rollNo nm yr br sec : String)
deriving Repr, DecidableEq

def Effect.isNetwork : Effect → Bool
  | Effect.networkMarkAttendance _ => true
  | Effect.networkRegisterStudent _ _ _ _ _ => true
  | _ => false

structure MAState where
  isCameraActive : Bool
  isProcessing : Bool
  capturedImage : Option Jpeg
  detectedStudents : List DetectedStudent
  selectedSubject : Option Nat
  showSuccess : Bool
  error : Option String
  canvasRefPresent : Bool
  videoRefPresent : Bool
  videoReadyState : Nat
  videoWidth : Nat
  videoHeight : Nat
  streamRef : Option MediaStreamModel
  videoSrcObject : Bool
  releasedStreams : List (List Bool)
deriving Repr, DecidableEq

/-- Live tracks of the stream currently held through `streamRef`. -/
def MAState.heldActiveTracks (s : MAState) : Nat :=
  match s.streamRef with
  | some st => st.tracks.countP (fun b => b)
  | none => 0

/-- Live tracks among the streams this session has already released. -/
def MAState.liveReleased (s : MAState) : Nat :=
  (s.releasedStreams.map (fun l => l.countP (fun b => b))).sum

/-- All live hardware tracks ever acquired and still unstopped. -/
def MAState.totalActiveTracks (s : MAState) : Nat :=
  s.heldActiveTracks + s.liveReleased

/-- The `stopCamera` callback: stop every track of the held stream, null the ref, clear the
video element's source (when present), lower the camera-active flag. -/
def stopCamera (s : MAState) : MAState :=
  let s1 :=
    match s.streamRef with
    | some st =>
      { s with streamRef := none,
               releasedStreams := s.releasedStreams ++ [st.tracks.map (fun _ => false)] }
    | none => s
  let s2 := if s1.videoRefPresent then { s1 with videoSrcObject := false } else s1
  { s2 with isCameraActive := false }

/-- The unmount effect: stop every track of the held stream in place. -/
def unmountCleanup (s : MAState) : MAState :=
  match s.streamRef with
  | some st => { s with streamRef := some ⟨st.tracks.map (fun _ => false)⟩ }
  | none => s

/-- Resolution of `startCamera`'s `getUserMedia` call: on denial a toast, on
grant the stream is installed only when the video element is mounted (when it
is not, the acquired stream is dropped without ever being held). -/
def startCameraResolve (s : MAState) (granted : Option (List Bool)) :
    MAState × List Effect :=
  match granted with
  | none => (s, [Effect.toastError "Camera access denied. Please allow camera permissions."])
  | some tracks =>
    if s.videoRefPresent then
      ({ s with videoSrcObject := true, streamRef := some ⟨tracks⟩, isCameraActive := true,
                capturedImage := none, detectedStudents := [], error := none }, [])
    else (s, [])

/-- The `canvas.toBlob` continuation scheduled by `captureAndProcess`,
together with the subject id captured in its closure. -/
structure PendingCapture where
  subjectId : Nat
  encoding : Jpeg
deriving Repr, DecidableEq

/-- The synchronous body of `captureAndProcess`: local guards, frame capture
into the canvas at the video's native size, data-URL preview at quality 0.9,
then entry into the processing state and scheduling of the blob callback. -/
def captureAndProcessSync (s : MAState) : MAState × List Effect × Option PendingCapture :=
  match s.selectedSubject with
  | none => (s, [Effect.toastError "Select a subject first"], none)
  | some subj =>
    if s.canvasRefPresent = false ∨ s.videoRefPresent = false then (s, [], none)
    else if s.videoReadyState ≠ 4 then (s, [], none)
    else
      ({ s with capturedImage := some ⟨s.videoWidth, s.videoHeight, some 0.9⟩,
                isProcessing := true, detectedStudents := [], error := none },
       [], some ⟨subj, ⟨s.videoWidth, s.videoHeight, some 0.9⟩⟩)

/-- A click on the Capture and Mark button: it is rendered only while the
camera is active and disabled while processing. -/
def submitClick (s : MAState) : MAState × List Effect × Option PendingCapture :=
  if s.isCameraActive = true ∧ s.isProcessing = false then captureAndProcessSync s
  else (s, [], none)

/-- The response of `api.markAttendance` as seen by the component: a typed
result, or a thrown error already normalized to a display message. -/
inductive SubmitResponse
  | ok (result : AttendanceResult)
  | fail (msg : String)
deriving Repr, DecidableEq

/-- The successive `detectedStudents` values produced by the staged-reveal
loop over a fully computed detection list. -/
def revealStates (students : List DetectedStudent) : List (List DetectedStudent) :=
  (List.range students.length).map (fun i => students.take (i + 1))

/-- Processing of the awaited response inside the blob callback: the catch
branch for a thrown error, the zero-detection branch, or the staged reveal
followed by the success banner; `finally` clears the processing flag. -/
def processResponse (s : MAState) (resp : SubmitResponse) :
    MAState × List Effect × List (List DetectedStudent) :=
  match resp with
  | SubmitResponse.fail msg =>
    ({ s with error := some msg, isProcessing := false }, [Effect.toastError msg], [])
  | SubmitResponse.ok result =>
    let students := result.students_present.map toDetectedStudent
    if students.isEmpty then
      ({ s with error := some "No students detected in the image", isProcessing := false },
       [Effect.toastWarning "No students detected. Try again with better lighting."], [])
    else
      ({ s with detectedStudents := s.detectedStudents ++ students,
                showSuccess := true, isProcessing := false },
       [], (revealStates students).map (fun pre => s.detectedStudents ++ pre))

/-- The blob callback itself: a null blob raises before any network call;
otherwise the capture is posted to the mark-attendance endpoint and the
response is processed. -/
def processBlobResult (s : MAState) (p : PendingCapture) (blobOk : Bool)
    (resp : SubmitResponse) : MAState × List Effect × List (List DetectedStudent) :=
  if blobOk = false then
    ({ s with error := some "Failed to capture image", isProcessing := false },
     [Effect.toastError "Failed to capture image"], [])
  else
    let r := processResponse s resp
    (r.1, Effect.networkMarkAttendance p.subjectId :: r.2.1, r.2.2)

/-- One full submit: the click, then (when a capture was scheduled) the blob
callback with the given blob outcome and network response. -/
def submitAndRespond (s : MAState) (blobOk : Bool) (resp : SubmitResponse) :
    MAState × List Effect × List (List DetectedStudent) :=
  let c := submitClick s
  match c.2.2 with
  | none => (c.1, c.2.1, [])
  | some p =>
    let r := processBlobResult c.1 p blobOk resp
    (r.1, c.2.1 ++ r.2.1, r.2.2)

/-- Run a possibly-scheduled blob callback on an accumulated state and trace. -/
def runPending (st : MAState × List Effect) (p : Option PendingCapture)
    (blobOk : Bool) (resp : SubmitResponse) : MAState × List Effect :=
  match p with
  | none => st
  | some pc =>
    let r := processBlobResult st.1 pc blobOk resp
    (r.1, st.2 ++ r.2.1)

/-- Two rapid submit clicks, then every callback either click scheduled. -/
def doubleClickRun (s : MAState) (blobOk : Bool) (resp : SubmitResponse) :
    MAState × List Effect :=
  let c1 := submitClick s
  let c2 := submitClick c1.1
  runPending (runPending (c2.1, c1.2.1 ++ c2.2.1) c1.2.2 blobOk resp) c2.2.2 blobOk resp

/-- The inline notice rendered when `error` is set (the single banner used
for every failure message). -/
structure Banner where
  style : String
  message : String
deriving Repr, DecidableEq

def renderErrorBanner (s : MAState) : Option Banner :=
  s.error.map (fun m =>
    { style := "mb-4 p-4 rounded-lg bg-destructive/10 border border-destructive/30 flex items-center gap-3",
      message := m })

/-- A concrete camera-active, subject-selected, idle state. -/
def readyState0 : MAState :=
  { isCameraActive := true, isProcessing := false, capturedImage := none,
    detectedStudents := [], selectedSubject := some 7, showSuccess := false,
    error := none, canvasRefPresent := true, videoRefPresent := true,
    videoReadyState := 4, videoWidth := 1280, videoHeight := 720,
    streamRef := some ⟨[true, true]⟩, videoSrcObject := true, releasedStreams := [] }

def emptyResultResponse : SubmitResponse :=
  SubmitResponse.ok { status := "success", count := 0, students_present := [] }

def failedResponse : SubmitResponse := SubmitResponse.fail "Request failed (500)"

def oneStudentResult : AttendanceResult :=
  { status := "success", count := 1,
    students_present := [{ student_id := 1, name := some "A", roll_no := some "R1",
                           confidence := 0.95 }] }

/-! ## StudentTraining enrollment capture flow (StudentTraining.tsx) -/

structure EnrollForm where
  name : String
  roll_no : String
  year : String
  branch : String
  sectionName : String
deriving Repr, DecidableEq

/-- The `File` built from the captured blob: name, encoding, and the mirror
transform applied to the preview capture. -/
structure CapturedFileModel where
  filename : String
  encoding : Jpeg
  mirrored : Bool
deriving Repr, DecidableEq

structure EnrollState where
  isCameraActive : Bool
  isProcessing : Bool
  capturedImage : Option Jpeg
  capturedFile : Option CapturedFileModel
  registrationSuccess : Bool
  form : EnrollForm
  canvasRefPresent : Bool
  videoRefPresent : Bool
  videoReadyState : Nat
  videoWidth : Nat
  videoHeight : Nat
  streamRef : Option MediaStreamModel
  videoSrcObject : Bool
deriving Repr, DecidableEq

def enrollStopCamera (es : EnrollState) : EnrollState :=
  let s1 :=
    match es.streamRef with
    | some _ => { es with streamRef := none }
    | none => es
  let s2 := if s1.videoRefPresent then { s1 with videoSrcObject := false } else s1
  { s2 with isCameraActive := false }

def isJsSpace (c : Char) : Bool :=
  c = ' ' || c = '\t' || c = '\n' || c = '\r' || c = Char.ofNat 12 || c = Char.ofNat 11

/-- JavaScript `String.prototype.trim` (over the whitespace this model needs). -/
def jsTrim (s : String) : String :=
  String.mk (((s.data.dropWhile isJsSpace).reverse.dropWhile isJsSpace).reverse)

/-- The `isFormValid` check: all five fields non-blank and a captured file present. -/
def isFormValid (es : EnrollState) : Bool :=
  jsTrim es.form.name != "" && jsTrim es.form.roll_no != "" && jsTrim es.form.year != ""
    && jsTrim es.form.branch != "" && jsTrim es.form.sectionName != ""
    && es.capturedFile.isSome

/-- The synchronous body of `capturePhoto`: guards, then canvas sizing at the
video's native resolution, mirror transform, draw, and scheduling of the blob
callback at JPEG quality 0.9.  No state changes before the callback. -/
def capturePhotoSync (es : EnrollState) : EnrollState × List Effect × Option Jpeg :=
  if es.canvasRefPresent = false ∨ es.videoRefPresent = false then (es, [], none)
  else if es.videoReadyState ≠ 4 then
    (es, [Effect.toastError "Camera not ready yet. Please wait a moment."], none)
  else (es, [], some ⟨es.videoWidth, es.videoHeight, some 0.9⟩)

/-- The name given to the captured `File` (roll number, or "face" when the
roll-number field is empty, by string truthiness). -/
def captureFileName (rollNo : String) : String :=
  "student_" ++ (if rollNo = "" then "face" else rollNo) ++ ".jpg"

/-- The `capturePhoto` blob callback: a null blob silently returns; otherwise
the file and preview are stored and the camera is stopped. -/
def capturePhotoBlobCallback (es : EnrollState) (enc : Jpeg) (blobOk : Bool) : EnrollState :=
  if blobOk = false then es
  else
    enrollStopCamera
      { es with
          capturedFile := some
            { filename := captureFileName es.form.roll_no, encoding := enc, mirrored := true },
          capturedImage := some ⟨es.videoWidth, es.videoHeight, none⟩ }

/-- The `registerStudent` request scheduled by a validated enrollment submit. -/
structure PendingRegistration where
  roll_no : String
  name : String
  year : String
  branch : String
  sectionName : String
  file : CapturedFileModel
deriving Repr, DecidableEq

/-- The synchronous body of `submit`: guard on a captured file, then on form
validity, then enter processing and issue the registration request. -/
def submitSync (es : EnrollState) : EnrollState × List Effect × Option PendingRegistration :=
  match es.capturedFile with
  | none => (es, [], none)
  | some f =>
    if isFormValid es = false then
      (es, [Effect.toastError "Please fill all fields and capture/upload a photo."], none)
    else
      ({ es with isProcessing := true }, [],
       some { roll_no := es.form.roll_no, name := es.form.name, year := es.form.year,
              branch := es.form.branch, sectionName := es.form.sectionName, file := f })

/-- A click on the enrollment submit button, which is disabled while the form
is invalid or a submission is processing. -/
def enrollSubmitClick (es : EnrollState) :
    EnrollState × List Effect × Option PendingRegistration :=
  if isFormValid es = true ∧ es.isProcessing = false then submitSync es
  else (es, [], none)

/-- A concrete enrollment-screen state with camera active and a blank form. -/
def enrollReady0 : EnrollState :=
  { isCameraActive := true, isProcessing := false, capturedImage := none,
    capturedFile := none, registrationSuccess := false,
    form := { name := "", roll_no := "", year := "", branch := "", sectionName := "" },
    canvasRefPresent := true, videoRefPresent := true, videoReadyState := 4,
    videoWidth := 640, videoHeight := 480, streamRef := some ⟨[true]⟩,
    videoSrcObject := true }

/-! ## Theorems -/

/-- C1: for every confidence value, the spec tier is "high" iff c ≥ 0.85,
"medium" iff 0.70 ≤ c < 0.85, "low" iff c < 0.70 (boundaries to the higher
tier), and the detection-status assignment and both confidence colour
functions compute exactly this mapping. -/
theorem confidence_tier_classification (c : ℚ) :
    ((specTier c = Tier.high ↔ 0.85 ≤ c)
      ∧ (specTier c = Tier.medium ↔ 0.7 ≤ c ∧ c < 0.85)
      ∧ (specTier c = Tier.low ↔ c < 0.7))
    ∧ tierOfStatusString (captureStatusAssignment c) = some (specTier c)
    ∧ tierOfTextColor (getConfidenceColor c) = some (specTier c)
    ∧ tierOfBarColor (getConfidenceBarColor c) = some (specTier c) := by
  unfold specTier captureStatusAssignment getConfidenceColor getConfidenceBarColor
    tierOfStatusString tierOfTextColor tierOfBarColor
  by_cases h1 : (0.85 : ℚ) ≤ c
  · have h2 : (0.7 : ℚ) ≤ c := le_trans (by norm_num) h1
    have h3 : ¬ c < 0.85 := not_lt.mpr h1
    have h4 : ¬ c < 0.7 := not_lt.mpr h2
    simp [ge_iff_le, h1, h2, h3, h4]
  · by_cases h2 : (0.7 : ℚ) ≤ c
    · have h3 : c < 0.85 := not_le.mp h1
      have h4 : ¬ c < 0.7 := not_lt.mpr h2
      simp [ge_iff_le, h1, h2, h3, h4]
    · have h3 : c < 0.7 := not_le.mp h2
      simp [ge_iff_le, h1, h2, h3]

/-- C9: for every prior storage, token and user profile, `setAuth` followed by
`logout` leaves neither the access-token key nor the user-profile key in
storage, after which `isAuthenticated` is false and `getUser` returns null. -/
theorem store_then_logout_round_trip (st : Storage) (token : String) (u : UserProfile) :
    (logout (setAuth st token u)).getItem "access_token" = none
    ∧ (logout (setAuth st token u)).getItem "user" = none
    ∧ isAuthenticated (logout (setAuth st token u)) = false
    ∧ getUser (logout (setAuth st token u)) = Except.ok none := by
  have haccess : (logout (setAuth st token u)).getItem "access_token" = none := by
    simp [logout, setAuth, Storage.getItem, Storage.setItem, Storage.removeItem]
  have huser : (logout (setAuth st token u)).getItem "user" = none := by
    simp [logout, setAuth, Storage.getItem, Storage.setItem, Storage.removeItem]
  refine ⟨haccess, huser, ?_, ?_⟩
  · rw [isAuthenticated, haccess]
  · rw [getUser, huser]

/-- C10: `decodeJWT` is total and never throws: on every input it returns the
parsed payload exactly when the underlying pipeline succeeds and null exactly
when any step of the pipeline raises; in particular it returns null for any
token without a second dot-separated segment and for any token whose payload
segment is not base64url-decodable. -/
theorem decodeJWT_total_null_on_malformed (token : String) :
    ((∃ v, decodeJWT token = some v ∧ decodeJWTPipeline token = Except.ok v)
      ∨ (decodeJWT token = none ∧ ∃ e, decodeJWTPipeline token = Except.error e))
    ∧ ((jsSplitChar '.' token).length ≤ 1 → decodeJWT token = none)
    ∧ (∀ seg, (jsSplitChar '.' token)[1]? = some seg →
        ∀ e, atob (b64urlToB64 seg) = Except.error e → decodeJWT token = none) := by
  refine ⟨?_, ?_, ?_⟩
  · cases h : decodeJWTPipeline token with
    | ok v => exact Or.inl ⟨v, by simp [decodeJWT, h], rfl⟩
    | error e => exact Or.inr ⟨by simp [decodeJWT, h], e, rfl⟩
  · intro hlen
    have hnone : (jsSplitChar '.' token)[1]? = none := List.getElem?_eq_none hlen
    simp [decodeJWT, decodeJWTPipeline, hnone]
  · intro seg hseg e hatob
    simp [decodeJWT, decodeJWTPipeline, hseg, hatob]

/-- Witness for C10 at the concrete malformed token "garbage". -/
theorem decodeJWT_total_null_on_malformed_witness :
    (jsSplitChar '.' "garbage").length ≤ 1 ∧ decodeJWT "garbage" = none := by
  have h : (jsSplitChar '.' "garbage").length ≤ 1 := by decide
  exact ⟨h, (decodeJWT_total_null_on_malformed "garbage").2.1 h⟩

/-- C5 counterexample: a non-2xx response whose body carries the present (but
empty) string detail field "" does not surface "", because JavaScript
truthiness treats the empty string as absent: the generic fallback is
surfaced instead. -/
theorem gateway_detail_verbatim_counterexample :
    requestJsonErrorMessage 400 (BodyParse.parsed ⟨some (DetailVal.str ""), none⟩)
        = "Request failed (400)"
    ∧ requestJsonErrorMessage 400 (BodyParse.parsed ⟨some (DetailVal.str ""), none⟩) ≠ ""
    ∧ handleApiErrorMessage "Login failed" (BodyParse.parsed ⟨some (DetailVal.str ""), none⟩)
        ≠ "" := by
  refine ⟨?_, by decide, by decide⟩
  decide

/-- C5 amended: the surfaced message is exactly the body's string `detail`
when it is present and non-empty (identically in `requestJson` and
`handleApiError`); when `detail` is a validation array, the first entry's
`msg` (for `handleApiError` only when that `msg` is non-empty); with no
parseable body, or with an absent or empty `detail`, the fallback containing
the status (`requestJson`, which first tries a non-empty body `message`
field) or the operation (`handleApiError`). -/
theorem gateway_error_detail_mapping (status : Nat) (fb s m : String)
    (es : List ErrEntry) (msg : Option String) :
    (s ≠ "" →
      requestJsonErrorMessage status (BodyParse.parsed ⟨some (DetailVal.str s), msg⟩) = s
      ∧ handleApiErrorMessage fb (BodyParse.parsed ⟨some (DetailVal.str s), msg⟩) = s)
    ∧ (es.head? = some ⟨some m⟩ →
      requestJsonErrorMessage status (BodyParse.parsed ⟨some (DetailVal.arr es), msg⟩) = m
      ∧ (m ≠ "" →
        handleApiErrorMessage fb (BodyParse.parsed ⟨some (DetailVal.arr es), msg⟩) = m))
    ∧ requestJsonErrorMessage status BodyParse.unparseable
        = "Request failed (" ++ toString status ++ ")"
    ∧ handleApiErrorMessage fb BodyParse.unparseable = fb
    ∧ requestJsonErrorMessage status (BodyParse.parsed ⟨none, none⟩)
        = "Request failed (" ++ toString status ++ ")"
    ∧ handleApiErrorMessage fb (BodyParse.parsed ⟨none, msg⟩) = fb
    ∧ (m ≠ "" →
      requestJsonErrorMessage status (BodyParse.parsed ⟨none, some m⟩) = m)
    ∧ requestJsonErrorMessage status (BodyParse.parsed ⟨some (DetailVal.str ""), some m⟩)
        = (if m = "" then "Request failed (" ++ toString status ++ ")" else m) := by
  refine ⟨?_, ?_, rfl, rfl, rfl, rfl, ?_, rfl⟩
  · intro hs
    simp [requestJsonErrorMessage, handleApiErrorMessage, hs]
  · intro hes
    simp [requestJsonErrorMessage, handleApiErrorMessage, hes]
    intro hm
    simp [hm]
  · intro hm
    simp [requestJsonErrorMessage, messageFieldOr, hm]

/-- Witness for C5 (amended) at concrete inputs. -/
theorem gateway_error_detail_mapping_witness :
    requestJsonErrorMessage 403
        (BodyParse.parsed ⟨some (DetailVal.str "Not authorized"), none⟩) = "Not authorized"
    ∧ handleApiErrorMessage "Login failed"
        (BodyParse.parsed ⟨some (DetailVal.str "Not authorized"), none⟩) = "Not authorized"
    ∧ requestJsonErrorMessage 422
        (BodyParse.parsed ⟨some (DetailVal.arr [⟨some "field required"⟩]), none⟩)
        = "field required" := by
  refine ⟨?_, ?_, ?_⟩
  · exact ((gateway_error_detail_mapping 403 "Login failed" "Not authorized" "x" [] none).1
      (by decide)).1
  · exact ((gateway_error_detail_mapping 403 "Login failed" "Not authorized" "x" [] none).1
      (by decide)).2
  · exact ((gateway_error_detail_mapping 422 "Login failed" "x" "field required"
      [⟨some "field required"⟩] none).2.1 (by decide)).1

theorem countP_id_map_false (l : List Bool) :
    (l.map (fun _ => false)).countP (fun b => b) = 0 := by
  induction l with
  | nil => rfl
  | cons a t ih => simp [List.countP_cons, ih]

/-- C7: stopping the camera is total and idempotent: from any prior state it
leaves the stream handle null, the camera-active flag false, and zero live
tracks held by the session; it stops (rather than leaks) every held track, so
any state whose previously released streams are dead has zero live hardware
tracks afterwards; and the unmount cleanup performs the same release. -/
theorem stop_camera_total_idempotent (s : MAState) :
    (stopCamera s).streamRef = none
    ∧ (stopCamera s).isCameraActive = false
    ∧ (stopCamera s).heldActiveTracks = 0
    ∧ stopCamera (stopCamera s) = stopCamera s
    ∧ (stopCamera s).liveReleased = s.liveReleased
    ∧ (s.liveReleased = 0 → (stopCamera s).totalActiveTracks = 0)
    ∧ (unmountCleanup s).heldActiveTracks = 0 := by
  rcases hsr : s.streamRef with _ | st <;> by_cases hv : s.videoRefPresent <;>
    simp [stopCamera, unmountCleanup, MAState.heldActiveTracks, MAState.liveReleased,
      MAState.totalActiveTracks, hsr, hv, countP_id_map_false]

/-- Witness for C7 at the concrete active-camera state. -/
theorem stop_camera_total_idempotent_witness :
    readyState0.liveReleased = 0 ∧ (stopCamera readyState0).totalActiveTracks = 0 :=
  ⟨by decide, (stop_camera_total_idempotent readyState0).2.2.2.2.2.1 (by decide)⟩

/-- C2: every locally rejected submission (no subject selected, refs missing,
video frame not ready, or a submission already in flight in MarkAttendance;
no captured file, invalid form, or a submission already in flight in the
enrollment screen) performs no network call, schedules no request, and leaves
the workflow state unchanged, emitting at most a user-facing toast. -/
theorem submission_rejected_locally (s : MAState) (es : EnrollState) :
    (s.selectedSubject = none →
      captureAndProcessSync s = (s, [Effect.toastError "Select a subject first"], none))
    ∧ (s.canvasRefPresent = false ∨ s.videoRefPresent = false →
        (captureAndProcessSync s).1 = s ∧ (captureAndProcessSync s).2.2 = none
        ∧ (captureAndProcessSync s).2.1.filter Effect.isNetwork = [])
    ∧ (s.videoReadyState ≠ 4 →
        (captureAndProcessSync s).1 = s ∧ (captureAndProcessSync s).2.2 = none
        ∧ (captureAndProcessSync s).2.1.filter Effect.isNetwork = [])
    ∧ (s.isProcessing = true → submitClick s = (s, [], none))
    ∧ (es.capturedFile = none → submitSync es = (es, [], none))
    ∧ (isFormValid es = false →
        (submitSync es).1 = es ∧ (submitSync es).2.2 = none
        ∧ (submitSync es).2.1.filter Effect.isNetwork = [])
    ∧ (es.isProcessing = true → enrollSubmitClick es = (es, [], none)) := by
  refine ⟨?_, ?_, ?_, ?_, ?_, ?_, ?_⟩
  · intro h
    simp [captureAndProcessSync, h]
  · intro h
    rcases hsub : s.selectedSubject with _ | subj
    · simp [captureAndProcessSync, hsub, Effect.isNetwork]
    · have hguard : s.canvasRefPresent = false ∨ s.videoRefPresent = false := h
      simp [captureAndProcessSync, hsub, hguard]
  · intro h
    rcases hsub : s.selectedSubject with _ | subj
    · simp [captureAndProcessSync, hsub, Effect.isNetwork]
    · by_cases hguard : s.canvasRefPresent = false ∨ s.videoRefPresent = false
      · simp [captureAndProcessSync, hsub, hguard]
      · simp [captureAndProcessSync, hsub, hguard, h]
  · intro h
    simp [submitClick, h]
  · intro h
    simp [submitSync, h]
  · intro h
    rcases hf : es.capturedFile with _ | f
    · simp [submitSync, hf]
    · simp [submitSync, hf, h, Effect.isNetwork]
  · intro h
    simp [enrollSubmitClick, h]

/-- Witness for C2 at concrete rejected states. -/
theorem submission_rejected_locally_witness :
    ({ readyState0 with selectedSubject := none } : MAState).selectedSubject = none
    ∧ captureAndProcessSync { readyState0 with selectedSubject := none }
        = ({ readyState0 with selectedSubject := none },
           [Effect.toastError "Select a subject first"], none) := by
  refine ⟨rfl, ?_⟩
  exact (submission_rejected_locally { readyState0 with selectedSubject := none }
    enrollReady0).1 rfl

theorem processResponse_no_network (s : MAState) (resp : SubmitResponse) :
    (processResponse s resp).2.1.filter Effect.isNetwork = [] := by
  rcases resp with result | msg
  · by_cases h : (result.students_present.map toDetectedStudent).isEmpty <;>
      simp [processResponse, h, Effect.isNetwork]
  · simp [processResponse, Effect.isNetwork]

/-- C6: from any camera-active, idle, fully ready state, a submit click
enters the processing state and schedules exactly one capture; a second
rapid click is rejected with no state change, no effect and no scheduled
capture; the whole double-click run performs exactly one network submission
and ends in the same state as a single click followed by its response (the
first submission is not canceled). -/
theorem single_submission_per_capture (s : MAState) (subj : Nat)
    (hAct : s.isCameraActive = true) (hIdle : s.isProcessing = false)
    (hSubj : s.selectedSubject = some subj)
    (hCan : s.canvasRefPresent = true) (hVid : s.videoRefPresent = true)
    (hReady : s.videoReadyState = 4) (resp : SubmitResponse) :
    (submitClick s).1.isProcessing = true
    ∧ (submitClick s).2.2 = some ⟨subj, ⟨s.videoWidth, s.videoHeight, some 0.9⟩⟩
    ∧ submitClick (submitClick s).1 = ((submitClick s).1, [], none)
    ∧ (doubleClickRun s true resp).2.filter Effect.isNetwork
        = [Effect.networkMarkAttendance subj]
    ∧ (doubleClickRun s true resp).1 = (submitAndRespond s true resp).1 := by
  have hclick : submitClick s =
      ({ s with capturedImage := some ⟨s.videoWidth, s.videoHeight, some 0.9⟩,
                isProcessing := true, detectedStudents := [], error := none },
       [], some ⟨subj, ⟨s.videoWidth, s.videoHeight, some 0.9⟩⟩) := by
    simp [submitClick, captureAndProcessSync, hAct, hIdle, hSubj, hCan, hVid, hReady]
  have hsecond : submitClick
      { s with capturedImage := some ⟨s.videoWidth, s.videoHeight, some 0.9⟩,
               isProcessing := true, detectedStudents := [], error := none } =
      ({ s with capturedImage := some ⟨s.videoWidth, s.videoHeight, some 0.9⟩,
                isProcessing := true, detectedStudents := [], error := none }, [], none) := by
    simp [submitClick]
  refine ⟨by rw [hclick], by rw [hclick], by rw [hclick]; exact hsecond, ?_, ?_⟩
  · simp only [doubleClickRun, hclick, hsecond, runPending, processBlobResult]
    simp [processResponse_no_network, Effect.isNetwork]
  · simp only [doubleClickRun, hclick, hsecond, runPending, submitAndRespond]

/-- Witness for C6 at the concrete ready state and a concrete response. -/
theorem single_submission_per_capture_witness :
    readyState0.isCameraActive = true ∧ readyState0.isProcessing = false
    ∧ readyState0.selectedSubject = some 7 ∧ readyState0.canvasRefPresent = true
    ∧ readyState0.videoRefPresent = true ∧ readyState0.videoReadyState = 4
    ∧ (doubleClickRun readyState0 true (SubmitResponse.ok oneStudentResult)).2.filter
        Effect.isNetwork = [Effect.networkMarkAttendance 7] := by
  refine ⟨rfl, rfl, rfl, rfl, rfl, rfl, ?_⟩
  exact (single_submission_per_capture readyState0 7 rfl rfl rfl rfl rfl rfl
    (SubmitResponse.ok oneStudentResult)).2.2.2.1

theorem submitClick_ready (s : MAState) (subj : Nat)
    (hAct : s.isCameraActive = true) (hIdle : s.isProcessing = false)
    (hSubj : s.selectedSubject = some subj)
    (hCan : s.canvasRefPresent = true) (hVid : s.videoRefPresent = true)
    (hReady : s.videoReadyState = 4) :
    submitClick s =
      ({ s with capturedImage := some ⟨s.videoWidth, s.videoHeight, some 0.9⟩,
                isProcessing := true, detectedStudents := [], error := none },
       [], some ⟨subj, ⟨s.videoWidth, s.videoHeight, some 0.9⟩⟩) := by
  simp [submitClick, captureAndProcessSync, hAct, hIdle, hSubj, hCan, hVid, hReady]

/-- C3: a well-formed response with N ≥ 1 detections discloses exactly N
items, one at a time (the k-th disclosure is the (k+1)-prefix of the one list
computed from the whole response before disclosure begins), in exactly the
server's order, and the final disclosed count equals N. -/
theorem staged_reveal_server_order (s : MAState) (subj : Nat)
    (hAct : s.isCameraActive = true) (hIdle : s.isProcessing = false)
    (hSubj : s.selectedSubject = some subj)
    (hCan : s.canvasRefPresent = true) (hVid : s.videoRefPresent = true)
    (hReady : s.videoReadyState = 4)
    (result : AttendanceResult) (hN : result.students_present ≠ []) :
    (submitAndRespond s true (SubmitResponse.ok result)).2.2.length
        = result.students_present.length
    ∧ (∀ k, k < result.students_present.length →
        (submitAndRespond s true (SubmitResponse.ok result)).2.2[k]?
          = some ((result.students_present.map toDetectedStudent).take (k + 1)))
    ∧ (∀ k : Nat, (result.students_present.map toDetectedStudent)[k]?
        = (result.students_present[k]?).map toDetectedStudent)
    ∧ (submitAndRespond s true (SubmitResponse.ok result)).1.detectedStudents
        = result.students_present.map toDetectedStudent
    ∧ (submitAndRespond s true (SubmitResponse.ok result)).1.detectedStudents.length
        = result.students_present.length := by
  have hclick := submitClick_ready s subj hAct hIdle hSubj hCan hVid hReady
  have hne : (result.students_present.map toDetectedStudent).isEmpty = false := by
    cases h : result.students_present with
    | nil => exact absurd h hN
    | cons a t => simp [h]
  refine ⟨?_, ?_, ?_, ?_, ?_⟩
  · simp [submitAndRespond, hclick, processBlobResult, processResponse, hne, revealStates]
  · intro k hk
    simp [submitAndRespond, hclick, processBlobResult, processResponse, hne, revealStates,
      List.getElem?_map, List.getElem?_range, hk]
  · intro k
    simp [List.getElem?_map]
  · simp [submitAndRespond, hclick, processBlobResult, processResponse, hne]
  · simp [submitAndRespond, hclick, processBlobResult, processResponse, hne]

/-- Witness for C3 at the ready state and a concrete one-detection result. -/
theorem staged_reveal_server_order_witness :
    oneStudentResult.students_present ≠ []
    ∧ (submitAndRespond readyState0 true (SubmitResponse.ok oneStudentResult)).2.2.length
        = oneStudentResult.students_present.length := by
  have h := staged_reveal_server_order readyState0 7 rfl rfl rfl rfl rfl rfl
    oneStudentResult (by simp [oneStudentResult])
  exact ⟨by simp [oneStudentResult], h.1⟩

/-- C4 counterexample: after a zero-detection response the inline user notice
is rendered by the very same error banner, with the identical destructive
styling, that a transport/server failure produces; the feedback is not
visually distinct from the error-banner treatment. -/
theorem empty_result_banner_not_distinct :
    (renderErrorBanner (submitAndRespond readyState0 true emptyResultResponse).1).map
        Banner.style
      = (renderErrorBanner (submitAndRespond readyState0 true failedResponse).1).map
        Banner.style
    ∧ ((renderErrorBanner (submitAndRespond readyState0 true emptyResultResponse).1).map
        Banner.style).isSome = true := by
  constructor <;> decide

theorem processResponse_camera_invariant (s : MAState) (resp : SubmitResponse) :
    (processResponse s resp).1.isCameraActive = s.isCameraActive
    ∧ (processResponse s resp).1.streamRef = s.streamRef := by
  rcases resp with result | msg
  · by_cases h : (result.students_present.map toDetectedStudent).isEmpty <;>
      simp [processResponse, h]
  · simp [processResponse]

/-- C4 amended: a zero-detection response takes the distinct empty-result
branch, not the catch branch: nothing is disclosed, the success banner is not
raised, the fixed no-students message is set and a warning toast (never an
error toast) is emitted; however the inline notice reuses exactly the
destructive error-banner styling that transport/server failures use. -/
theorem empty_result_distinct_branch (s : MAState) (subj : Nat)
    (hAct : s.isCameraActive = true) (hIdle : s.isProcessing = false)
    (hSubj : s.selectedSubject = some subj)
    (hCan : s.canvasRefPresent = true) (hVid : s.videoRefPresent = true)
    (hReady : s.videoReadyState = 4)
    (result : AttendanceResult) (hEmpty : result.students_present = []) :
    (submitAndRespond s true (SubmitResponse.ok result)).2.2 = []
    ∧ (submitAndRespond s true (SubmitResponse.ok result)).1.detectedStudents = []
    ∧ (submitAndRespond s true (SubmitResponse.ok result)).1.error
        = some "No students detected in the image"
    ∧ (submitAndRespond s true (SubmitResponse.ok result)).1.showSuccess = s.showSuccess
    ∧ Effect.toastWarning "No students detected. Try again with better lighting."
        ∈ (submitAndRespond s true (SubmitResponse.ok result)).2.1
    ∧ (∀ m, Effect.toastError m ∉ (submitAndRespond s true (SubmitResponse.ok result)).2.1)
    ∧ (renderErrorBanner (submitAndRespond s true (SubmitResponse.ok result)).1).map
        Banner.style
      = some "mb-4 p-4 rounded-lg bg-destructive/10 border border-destructive/30 flex items-center gap-3"
    ∧ (∀ msg, (renderErrorBanner (submitAndRespond s true (SubmitResponse.fail msg)).1).map
        Banner.style
      = some "mb-4 p-4 rounded-lg bg-destructive/10 border border-destructive/30 flex items-center gap-3") := by
  have hclick := submitClick_ready s subj hAct hIdle hSubj hCan hVid hReady
  refine ⟨?_, ?_, ?_, ?_, ?_, ?_, ?_, ?_⟩ <;>
    simp [submitAndRespond, hclick, processBlobResult, processResponse, hEmpty,
      renderErrorBanner]

/-- Witness for C4 (amended) at the ready state and the empty response. -/
theorem empty_result_distinct_branch_witness :
    (submitAndRespond readyState0 true
        (SubmitResponse.ok { status := "success", count := 0, students_present := [] })).1.error
      = some "No students detected in the image"
    ∧ (submitAndRespond readyState0 true
        (SubmitResponse.ok { status := "success", count := 0, students_present := [] })).2.2
      = [] := by
  have h := empty_result_distinct_branch readyState0 7 rfl rfl rfl rfl rfl rfl
    { status := "success", count := 0, students_present := [] } rfl
  exact ⟨h.2.2.1, h.1⟩

/-- C8 counterexample: in the mark-attendance flow a successful capture and
submission leaves the camera running: from the concrete camera-active ready
state, after `captureAndProcess` and a successful response the camera-active
flag is still true and the stream is still held, so the camera hardware is
not in the CameraOff state. -/
theorem capture_leaves_camera_running_counterexample :
    readyState0.isCameraActive = true
    ∧ (submitAndRespond readyState0 true
        (SubmitResponse.ok oneStudentResult)).1.isCameraActive = true
    ∧ (submitAndRespond readyState0 true
        (SubmitResponse.ok oneStudentResult)).1.streamRef = readyState0.streamRef := by
  refine ⟨rfl, ?_, ?_⟩ <;> decide

/-- C8 amended: in both capture flows the frame is read at the stream's
native resolution and the submitted encoding is JPEG at quality 0.9; the
enrollment capture stops the camera in its encode callback (camera off,
stream released, file stored), while the mark-attendance capture leaves the
camera active and the stream held, both at capture time and through the whole
submission. -/
theorem capture_encoding_and_camera_effect (s : MAState) (es : EnrollState) (subj : Nat)
    (hAct : s.isCameraActive = true) (hIdle : s.isProcessing = false)
    (hSubj : s.selectedSubject = some subj)
    (hCan : s.canvasRefPresent = true) (hVid : s.videoRefPresent = true)
    (hReady : s.videoReadyState = 4)
    (hecan : es.canvasRefPresent = true) (hevid : es.videoRefPresent = true)
    (heready : es.videoReadyState = 4) :
    (submitClick s).2.2 = some ⟨subj, ⟨s.videoWidth, s.videoHeight, some 0.9⟩⟩
    ∧ (submitClick s).1.capturedImage = some ⟨s.videoWidth, s.videoHeight, some 0.9⟩
    ∧ (submitClick s).1.isCameraActive = s.isCameraActive
    ∧ (∀ resp, (submitAndRespond s true resp).1.isCameraActive = s.isCameraActive
        ∧ (submitAndRespond s true resp).1.streamRef = s.streamRef)
    ∧ capturePhotoSync es = (es, [], some ⟨es.videoWidth, es.videoHeight, some 0.9⟩)
    ∧ (∀ enc, (capturePhotoBlobCallback es enc true).isCameraActive = false
        ∧ (capturePhotoBlobCallback es enc true).streamRef = none
        ∧ (capturePhotoBlobCallback es enc true).capturedFile =
            some { filename := captureFileName es.form.roll_no,
                   encoding := enc, mirrored := true }) := by
  have hclick := submitClick_ready s subj hAct hIdle hSubj hCan hVid hReady
  refine ⟨by rw [hclick], by rw [hclick], by rw [hclick], ?_, ?_, ?_⟩
  · intro resp
    have hinv := processResponse_camera_invariant
      { s with capturedImage := some ⟨s.videoWidth, s.videoHeight, some 0.9⟩,
               isProcessing := true, detectedStudents := [], error := none } resp
    simp only [submitAndRespond, hclick, processBlobResult]
    simpa using hinv
  · simp [capturePhotoSync, hecan, hevid, heready]
  · intro enc
    rcases hsr : es.streamRef with _ | st <;>
      simp [capturePhotoBlobCallback, enrollStopCamera, hsr, hevid]

/-- Witness for C8 (amended) at the concrete ready states. -/
theorem capture_encoding_and_camera_effect_witness :
    (submitClick readyState0).2.2 = some ⟨7, ⟨1280, 720, some 0.9⟩⟩
    ∧ capturePhotoSync enrollReady0 = (enrollReady0, [], some ⟨640, 480, some 0.9⟩) := by
  have h := capture_encoding_and_camera_effect readyState0 enrollReady0 7
    rfl rfl rfl rfl rfl rfl rfl rfl rfl
  exact ⟨h.1, h.2.2.2.2.1⟩

end EduFlow
